import Mathlib

/-!
Verification of the orchestration core of the Xiaoyu ESP32-S3 voice
assistant firmware: the `BackgroundTask` work queue, the `Application`
device state machine, the decode queue backpressure policy, and the
`Protocol` / `MqttProtocol` / `WebsocketProtocol` transport layer.

Each definition is a shallow embedding of the corresponding C++
function; machine integers are modelled as `Nat`, byte buffers as
`List Nat`, callbacks as explicit results, and concurrent code as a
step relation on an explicit state type.
-/

namespace Xiaoyu

/-! ## BackgroundTask (`src/main/background_task.cc`)

`BackgroundTask::Schedule` wraps the supplied callback, increments
`active_tasks_`, and appends the wrapped closure to `main_tasks_`; the
wrapper decrements `active_tasks_` only after the callback has fully
run.  `BackgroundTask::BackgroundTaskLoop` (the single worker thread)
swaps the whole `main_tasks_` list into a local `tasks` list and runs
the closures one at a time.  `BackgroundTask::WaitForCompletion`
blocks on the condition `main_tasks_.empty() && active_tasks_ == 0`.

A unit of work is modelled as a `Job`: the list of child jobs it
submits (via `Schedule`) during its own execution. -/

inductive Job where
  | mk (subs : List Job)

/-- The child jobs a `Job` submits while it runs. -/
def Job.subs : Job → List Job
  | .mk s => s

/-- The shared state of one `BackgroundTask` object.
`main_tasks` is the pending closure list `main_tasks_`; `batch` is the
worker thread's local `tasks` list after the swap; `running` is
`some remaining` while a closure is executing (`remaining` being the
child jobs it has not yet submitted); `active_tasks` is the counter
`active_tasks_`. -/
structure BgState where
  main_tasks : List Job
  batch : List Job
  running : Option (List Job)
  active_tasks : Nat

/-- A fresh `BackgroundTask`: empty queue, idle worker, zero counter. -/
def BgState.init : BgState := ⟨[], [], none, 0⟩

/-- One interleaved step of the `BackgroundTask` system: an external
`Schedule` call, the worker swapping the pending list out, the worker
starting the next closure of its batch, a running closure submitting
one of its child jobs, or a running closure finishing (which is when
the wrapper decrements `active_tasks_`). -/
inductive BgStep : BgState → BgState → Prop where
  | schedule (s : BgState) (j : Job) :
      BgStep s { s with main_tasks := s.main_tasks ++ [j],
                        active_tasks := s.active_tasks + 1 }
  | swapBatch (s : BgState) (hne : s.main_tasks ≠ [])
      (hb : s.batch = []) (hr : s.running = none) :
      BgStep s { s with main_tasks := [], batch := s.main_tasks }
  | startJob (s : BgState) (j : Job) (rest : List Job)
      (hb : s.batch = j :: rest) (hr : s.running = none) :
      BgStep s { s with batch := rest, running := some j.subs }
  | submitChild (s : BgState) (c : Job) (cs : List Job)
      (hr : s.running = some (c :: cs)) :
      BgStep s { s with main_tasks := s.main_tasks ++ [c],
                        active_tasks := s.active_tasks + 1,
                        running := some cs }
  | finishJob (s : BgState) (hr : s.running = some []) :
      BgStep s { s with running := none,
                        active_tasks := s.active_tasks - 1 }

/-- The states a `BackgroundTask` can reach from a fresh object under
any interleaving of `Schedule` calls and worker progress. -/
def BgReachable (s : BgState) : Prop :=
  Relation.ReflTransGen BgStep BgState.init s

/-- The condition-variable predicate of
`BackgroundTask::WaitForCompletion`: the call may only return in a
state satisfying `main_tasks_.empty() && active_tasks_ == 0`. -/
def WaitForCompletionCanReturn (s : BgState) : Prop :=
  s.main_tasks = [] ∧ s.active_tasks = 0

/-- Counting invariant of the queue: `active_tasks_` counts the
pending closures, the closures still in the worker's local batch, and
the closure currently executing. -/
def BgCounts (s : BgState) : Prop :=
  s.active_tasks =
    s.main_tasks.length + s.batch.length + (if s.running.isSome then 1 else 0)

theorem bgCounts_init : BgCounts BgState.init := rfl

theorem bgCounts_preserved {s t : BgState} (hs : BgCounts s) (h : BgStep s t) :
    BgCounts t := by
  cases h with
  | schedule j =>
      simp only [BgCounts, List.length_append, List.length_cons,
        List.length_nil] at hs ⊢
      omega
  | swapBatch hne hb hr =>
      simp only [BgCounts, hb, hr, List.length_nil, Option.isSome_none] at hs ⊢
      omega
  | startJob j rest hb hr =>
      simp [BgCounts, hb, hr] at hs ⊢
      omega
  | submitChild c cs hr =>
      simp [BgCounts, hr] at hs ⊢
      omega
  | finishJob hr =>
      simp [BgCounts, hr] at hs ⊢
      omega

theorem bgCounts_of_reachable {s : BgState} (h : BgReachable s) : BgCounts s := by
  induction h with
  | refl => exact bgCounts_init
  | tail _ hstep ih => exact bgCounts_preserved ih hstep

/-! ## Device state machine (`src/main/application.cc`, `application.h`)

`Application::SetDeviceState` is the only transition function of the
device state machine.  Its body is modelled as a pure function from
the relevant `Application` fields to the new fields plus the ordered
trace of observable actions it performs. -/

/-- `DeviceState` from `application.h`, in declaration order. -/
inductive DeviceState where
  | unknown
  | starting
  | wifiConfiguring
  | idle
  | connecting
  | listening
  | speaking
  | upgrading
  | activating
  | fatalError
deriving DecidableEq, Repr

/-- `ListeningMode` from `protocols/protocol.h`. -/
inductive ListeningMode where
  | autoStop
  | manualStop
  | realtime
deriving DecidableEq, Repr

/-- `AbortReason` from `protocols/protocol.h`. -/
inductive AbortReason where
  | none
  | wakeWordDetected
deriving DecidableEq, Repr

/-- The compile-time configuration switches that guard parts of the
entry actions (`CONFIG_USE_AUDIO_PROCESSOR`,
`CONFIG_USE_WAKE_WORD_DETECT`). -/
structure BuildConfig where
  useAudioProcessor : Bool
  useWakeWordDetect : Bool

/-- One observable side effect performed by the entry-action `switch`
of `Application::SetDeviceState`. -/
inductive EntryAction where
  | showStandby
  | setEmotionNeutral
  | showConnecting
  | clearChatMessage
  | showListening
  | showSpeaking
  | stopAudioProcessor
  | startAudioProcessor
  | startWakeWordDetection
  | stopWakeWordDetection
  | updateIotStates
  | sendStartListening (mode : ListeningMode)
  | waitSpeakerBuffer
  | resetEncoderState
  | resetDecoder
deriving DecidableEq, Repr

/-- The fields of `Application` that `SetDeviceState` reads or
writes.  `audio_processor_running` models `audio_processor_.IsRunning()`. -/
structure AppState where
  device_state : DeviceState
  clock_ticks : Nat
  listening_mode : ListeningMode
  audio_processor_running : Bool
deriving DecidableEq, Repr

/-- One event in the observable trace of `Application::SetDeviceState`:
the recording of `previous_state`, the write of `device_state_`, the
`ESP_LOGI` transition log line, the blocking call
`background_task_->WaitForCompletion()`, the common
`led->OnStateChanged()` notification, and each entry action. -/
inductive AppEvent where
  | recordPrevious (s : DeviceState)
  | setState (s : DeviceState)
  | logTransition (s : DeviceState)
  | waitForCompletion
  | ledOnStateChanged
  | entry (a : EntryAction)
deriving DecidableEq, Repr

/-- The entry-action `switch` of `Application::SetDeviceState`, branch
by branch.  `kDeviceStateUnknown` falls through to `kDeviceStateIdle`;
states without a `case` hit the empty `default` branch. -/
def entryActionsFor (cfg : BuildConfig) (state previous_state : DeviceState)
    (listening_mode : ListeningMode) (audio_processor_running : Bool) :
    List EntryAction :=
  match state with
  | .unknown | .idle =>
      [.showStandby, .setEmotionNeutral]
        ++ (if cfg.useAudioProcessor then [.stopAudioProcessor] else [])
        ++ (if cfg.useWakeWordDetect then [.startWakeWordDetection] else [])
  | .connecting => [.showConnecting, .setEmotionNeutral, .clearChatMessage]
  | .listening =>
      [.showListening, .setEmotionNeutral, .updateIotStates]
        ++ (if cfg.useAudioProcessor = false ∨ audio_processor_running = false then
              [.sendStartListening listening_mode]
                ++ (if listening_mode = .autoStop ∧ previous_state = .speaking then
                      [.waitSpeakerBuffer] else [])
                ++ [.resetEncoderState]
                ++ (if cfg.useWakeWordDetect then [.stopWakeWordDetection] else [])
                ++ (if cfg.useAudioProcessor then [.startAudioProcessor] else [])
            else [])
  | .speaking =>
      [.showSpeaking]
        ++ (if listening_mode ≠ .realtime then
              (if cfg.useAudioProcessor then [.stopAudioProcessor] else [])
                ++ (if cfg.useWakeWordDetect then [.startWakeWordDetection] else [])
            else [])
        ++ [.resetDecoder]
  | _ => []

/-- `Application::SetDeviceState(state)`: no-op when the state is
unchanged; otherwise reset `clock_ticks_`, record the previous state,
write `device_state_`, log, block on
`background_task_->WaitForCompletion()`, notify the LED, and run the
entry actions for the new state.  Returns the updated fields and the
ordered trace of events. -/
def SetDeviceState (cfg : BuildConfig) (app : AppState) (state : DeviceState) :
    AppState × List AppEvent :=
  if app.device_state = state then (app, [])
  else
    let previous_state := app.device_state
    let app' := { app with clock_ticks := 0, device_state := state }
    (app',
      [.recordPrevious previous_state, .setState state, .logTransition state,
        .waitForCompletion, .ledOnStateChanged]
        ++ (entryActionsFor cfg state previous_state app.listening_mode
              app.audio_processor_running).map .entry)

/-- Whether a trace event is the execution of an entry action. -/
def AppEvent.isEntry : AppEvent → Bool
  | .entry _ => true
  | _ => false

/-! ## Decode queue backpressure (`src/main/application.cc`, Start)

The `protocol_->OnIncomingAudio` lambda inserts an inbound packet into
`audio_decode_queue_` only while the queue holds fewer than
`300 / OPUS_FRAME_DURATION_MS` entries; otherwise the packet is
silently discarded. -/

/-- `OPUS_FRAME_DURATION_MS` from `application.h`. -/
def OPUS_FRAME_DURATION_MS : Nat := 60

/-- An encoded audio frame, an opaque byte buffer. -/
abbrev AudioPacket := List Nat

/-- `max_packets_in_queue` as computed inside the lambda. -/
def max_packets_in_queue : Nat := 300 / OPUS_FRAME_DURATION_MS

/-- The body of the `OnIncomingAudio` lambda: insert if below
capacity, otherwise drop (returning the queue unchanged). -/
def onIncomingAudio (audio_decode_queue : List AudioPacket)
    (data : AudioPacket) : List AudioPacket :=
  if audio_decode_queue.length < max_packets_in_queue then
    audio_decode_queue ++ [data]
  else
    audio_decode_queue

/-! ## Protocol control messages (`src/main/protocols/protocol.cc`)

Every control-message helper of the abstract `Protocol` class builds a
JSON string that starts with the `session_id_` field.  The builders
are modelled character for character on the C++ string concatenations
(for `SendIotDescriptors`, on the insertion-ordered
`cJSON_PrintUnformatted` output of the per-descriptor message). -/

/-- `Protocol::SendAbortSpeaking`. -/
def SendAbortSpeaking (session_id : String) (reason : AbortReason) : String :=
  "\x7b\"session_id\":\"" ++ session_id ++ "\",\"type\":\"abort\""
    ++ (if reason = .wakeWordDetected then ",\"reason\":\"wake_word_detected\"" else "")
    ++ "\x7d"

/-- `Protocol::SendWakeWordDetected`. -/
def SendWakeWordDetected (session_id wake_word : String) : String :=
  "\x7b\"session_id\":\"" ++ session_id
    ++ "\",\"type\":\"listen\",\"state\":\"detect\",\"text\":\"" ++ wake_word ++ "\"\x7d"

/-- `Protocol::SendStartListening`. -/
def SendStartListening (session_id : String) (mode : ListeningMode) : String :=
  "\x7b\"session_id\":\"" ++ session_id ++ "\""
    ++ ",\"type\":\"listen\",\"state\":\"start\""
    ++ (if mode = .realtime then ",\"mode\":\"realtime\""
        else if mode = .autoStop then ",\"mode\":\"auto\""
        else ",\"mode\":\"manual\"")
    ++ "\x7d"

/-- `Protocol::SendStopListening`. -/
def SendStopListening (session_id : String) : String :=
  "\x7b\"session_id\":\"" ++ session_id ++ "\",\"type\":\"listen\",\"state\":\"stop\"\x7d"

/-- `Protocol::SendIotStates`. -/
def SendIotStates (session_id states : String) : String :=
  "\x7b\"session_id\":\"" ++ session_id ++ "\",\"type\":\"iot\",\"update\":true,\"states\":"
    ++ states ++ "\x7d"

/-- The per-descriptor message built by `Protocol::SendIotDescriptors`:
`cJSON_PrintUnformatted` prints the fields in insertion order, and
`session_id` is inserted first. -/
def iotDescriptorMessage (session_id descriptor : String) : String :=
  "\x7b\"session_id\":\"" ++ session_id ++ "\",\"type\":\"iot\",\"update\":true,\"descriptors\":["
    ++ descriptor ++ "]\x7d"

/-- The goodbye message built by `MqttProtocol::CloseAudioChannel`. -/
def goodbyeMessage (session_id : String) : String :=
  "\x7b\"session_id\":\"" ++ session_id ++ "\",\"type\":\"goodbye\"\x7d"

/-- The leading `session_id` field every control message opens with. -/
def sessionField (session_id : String) : String :=
  "\x7b\"session_id\":\"" ++ session_id ++ "\""

/-- A control message carries a given session id when it opens with
the `session_id` field holding that id. -/
def CarriesSessionId (msg session_id : String) : Prop :=
  (sessionField session_id).data <+: msg.data

/-! ## Timeout detection (`src/main/protocols/protocol.cc`)

`Protocol::IsTimeout` compares
`duration_cast<seconds>(now - last_incoming_time_).count()` against a
fixed 120-second window.  Time points are modelled in whole seconds of
the steady clock. -/

/-- `kTimeoutSeconds` from `Protocol::IsTimeout`. -/
def kTimeoutSeconds : Nat := 120

/-- `Protocol::IsTimeout`, as a function of the current steady-clock
time and `last_incoming_time_` (both in seconds).  It only reads the
timestamp; nothing is torn down. -/
def IsTimeout (now last_incoming_time : Nat) : Bool :=
  now - last_incoming_time > kTimeoutSeconds

/-! ## MqttProtocol (`src/main/protocols/mqtt_protocol.cc`) -/

/-- The fields of `MqttProtocol` (with the inherited `Protocol`
fields) that the modelled operations read or write.  `udp_connected`
models `udp_ != nullptr`; `aes_nonce` is the decoded nonce prefix
`aes_nonce_` as bytes. -/
structure MqttState where
  session_id : String := ""
  server_sample_rate : Int := 24000
  server_frame_duration : Int := 60
  error_occurred : Bool := false
  last_incoming_time : Nat := 0
  udp_connected : Bool := false
  udp_server : String := ""
  udp_port : Int := 0
  aes_nonce : List Nat := []
  local_sequence : Nat := 0
  remote_sequence : Nat := 0
deriving DecidableEq, Repr

/-- `MqttProtocol::IsAudioChannelOpened`:
`udp_ != nullptr && !error_occurred_ && !IsTimeout()`. -/
def MqttIsAudioChannelOpened (st : MqttState) (now : Nat) : Bool :=
  st.udp_connected && !st.error_occurred && !(IsTimeout now st.last_incoming_time)

/-- The `udp` object of a server hello
(`{server, port, key, nonce}`); the key and nonce are the hex strings
of the wire message, already decoded to bytes here. -/
structure UdpInfo where
  server : String
  port : Int
  key : List Nat
  nonce : List Nat
deriving DecidableEq, Repr

/-- The fields of a parsed server hello JSON object that
`ParseServerHello` reads. -/
structure HelloMessage where
  transport : Option String
  session_id : Option String
  sample_rate : Option Int
  frame_duration : Option Int
  udp : Option UdpInfo
deriving DecidableEq, Repr

/-- `MqttProtocol::ParseServerHello`: reject a non-`udp` transport;
store the session id when present; store the negotiated audio
parameters when present; then require the `udp` object, store the
endpoint, install the key and nonce, reset both sequence counters and
signal `MQTT_PROTOCOL_SERVER_HELLO_EVENT` (the returned `Bool`). -/
def MqttParseServerHello (st : MqttState) (hello : HelloMessage) :
    MqttState × Bool :=
  if hello.transport ≠ some "udp" then (st, false)
  else
    let st := match hello.session_id with
      | some sid => { st with session_id := sid }
      | none => st
    let st := match hello.sample_rate with
      | some sr => { st with server_sample_rate := sr }
      | none => st
    let st := match hello.frame_duration with
      | some fd => { st with server_frame_duration := fd }
      | none => st
    match hello.udp with
    | none => (st, false)
    | some udp =>
        ({ st with udp_server := udp.server, udp_port := udp.port,
                   aes_nonce := udp.nonce,
                   local_sequence := 0, remote_sequence := 0 }, true)

/-! ## WebsocketProtocol (`src/main/protocols/websocket_protocol.cc`) -/

/-- The fields of `WebsocketProtocol` (with the inherited `Protocol`
fields) that the modelled operations read or write. -/
structure WsState where
  session_id : String := ""
  server_sample_rate : Int := 24000
  server_frame_duration : Int := 60
  error_occurred : Bool := false
  last_incoming_time : Nat := 0
  websocket_connected : Bool := false
deriving DecidableEq, Repr

/-- `WebsocketProtocol::ParseServerHello`: reject a non-`websocket`
transport; store the negotiated audio parameters when present; then
signal `WEBSOCKET_PROTOCOL_SERVER_HELLO_EVENT` (the returned `Bool`).
It reads no other field of the hello. -/
def WsParseServerHello (st : WsState) (hello : HelloMessage) :
    WsState × Bool :=
  if hello.transport ≠ some "websocket" then (st, false)
  else
    let st := match hello.sample_rate with
      | some sr => { st with server_sample_rate := sr }
      | none => st
    let st := match hello.frame_duration with
      | some fd => { st with server_frame_duration := fd }
      | none => st
    (st, true)

/-! ## OpenAudioChannel (C6)

Both implementations block on an event group for the server hello with
a `pdMS_TO_TICKS(10000)` timeout and surface every failure as a `false`
return.  The outcome of each external call is an input of the model:
whether the MQTT link is already connected, whether
`StartMqttClient` / `websocket_->Connect` succeeds, whether `SendText`
succeeds, and when (in milliseconds) the server hello event is set, if
ever. -/

/-- The fixed handshake timeout in milliseconds passed to
`xEventGroupWaitBits` by both `OpenAudioChannel` implementations. -/
def kServerHelloTimeoutMs : Nat := 10000

/-- Environment of one `MqttProtocol::OpenAudioChannel` call. -/
structure MqttOpenEnv where
  mqtt_connected : Bool
  start_mqtt_client_ok : Bool
  send_text_ok : Bool
  hello_event_at_ms : Option Nat
deriving DecidableEq, Repr

/-- `MqttProtocol::OpenAudioChannel`: reconnect if needed (returning
`false` if `StartMqttClient(true)` fails), send the client hello
(returning `false` if publishing fails), block up to 10s for
`MQTT_PROTOCOL_SERVER_HELLO_EVENT` (returning `false` on timeout), and
only then open the UDP socket and return `true`. -/
def MqttOpenAudioChannel (env : MqttOpenEnv) : Bool :=
  if !env.mqtt_connected && !env.start_mqtt_client_ok then false
  else if !env.send_text_ok then false
  else
    match env.hello_event_at_ms with
    | none => false
    | some t => if t ≤ kServerHelloTimeoutMs then true else false

/-- Environment of one `WebsocketProtocol::OpenAudioChannel` call. -/
structure WsOpenEnv where
  connect_ok : Bool
  send_text_ok : Bool
  hello_event_at_ms : Option Nat
deriving DecidableEq, Repr

/-- `WebsocketProtocol::OpenAudioChannel`: connect (returning `false`
on failure), send the client hello (returning `false` on failure),
block up to 10s for `WEBSOCKET_PROTOCOL_SERVER_HELLO_EVENT` (returning
`false` on timeout), then return `true`. -/
def WsOpenAudioChannel (env : WsOpenEnv) : Bool :=
  if !env.connect_ok then false
  else if !env.send_text_ok then false
  else
    match env.hello_event_at_ms with
    | none => false
    | some t => if t ≤ kServerHelloTimeoutMs then true else false

/-! ## The encrypted-datagram receive path (C3, C10)

The `udp_->OnMessage` lambda installed by
`MqttProtocol::OpenAudioChannel`.  The AES-CTR decryption call and the
null check of `on_incoming_audio_` are inputs of the model: `decrypt`
maps (nonce bytes, ciphertext bytes) to the mbedtls result, and
`has_audio_callback` models `on_incoming_audio_ != nullptr`.
`nonce_len_check` is the constant `sizeof(aes_nonce_)` used in the
minimum-length check (the size of the `std::string` object itself, a
platform constant), while the split of the packet into nonce and
ciphertext uses `aes_nonce_.size()`, the length of the stored nonce. -/

structure UdpEnv where
  nonce_len_check : Nat
  decrypt : List Nat → List Nat → Except Unit (List Nat)
  has_audio_callback : Bool

/-- The log lines the lambda can emit. -/
inductive UdpLog where
  | invalidSize (got : Nat)
  | invalidType (got : Nat)
  | oldSequence (got expected : Nat)
  | wrongSequence (got expected : Nat)
  | decryptFailed
deriving DecidableEq, Repr

/-- Result of one datagram delivery: the updated protocol fields, the
payload handed to `on_incoming_audio_` (if any), and the log lines. -/
structure UdpRecvResult where
  st : MqttState
  delivered : Option (List Nat)
  log : List UdpLog
deriving Repr

/-- Big-endian 32-bit read at byte offset `i` (the `ntohl` of
`*(uint32_t*)&data[12]`). -/
def be32At (data : List Nat) (i : Nat) : Nat :=
  data.getD i 0 * 2 ^ 24 + data.getD (i + 1) 0 * 2 ^ 16
    + data.getD (i + 2) 0 * 2 ^ 8 + data.getD (i + 3) 0

/-- The `udp_->OnMessage` lambda: reject short packets, reject a
leading type byte other than `0x01`, drop sequences below
`remote_sequence_` (logging them as old), log but accept sequence
gaps, decrypt, hand the plaintext to `on_incoming_audio_` when the
callback is set, and only then advance `remote_sequence_` and
`last_incoming_time_` (to `now`). -/
def udpOnMessage (env : UdpEnv) (st : MqttState) (data : List Nat)
    (now : Nat) : UdpRecvResult :=
  if data.length < env.nonce_len_check then
    ⟨st, none, [.invalidSize data.length]⟩
  else if data.getD 0 0 ≠ 1 then
    ⟨st, none, [.invalidType (data.getD 0 0)]⟩
  else
    let sequence := be32At data 12
    if sequence < st.remote_sequence then
      ⟨st, none, [.oldSequence sequence st.remote_sequence]⟩
    else
      let gap_log : List UdpLog :=
        if sequence ≠ st.remote_sequence + 1 then
          [.wrongSequence sequence (st.remote_sequence + 1)]
        else []
      match env.decrypt (data.take st.aes_nonce.length)
          (data.drop st.aes_nonce.length) with
      | .error _ => ⟨st, none, gap_log ++ [.decryptFailed]⟩
      | .ok decrypted =>
          ⟨{ st with remote_sequence := sequence, last_incoming_time := now },
            if env.has_audio_callback then some decrypted else none,
            gap_log⟩

/-! ## Version-check retry loop (C9)

The retry skeleton of `Application::CheckNewVersion`: on a failed
`ota_.CheckVersion()` the retry counter is incremented, the loop
returns once it reaches `MAX_RETRY`, and otherwise the loop sleeps
`retry_delay` seconds one second at a time (breaking out early if
`device_state_` is observed to be `kDeviceStateIdle`) and doubles
`retry_delay`.  The model stops at the first successful check (the
upgrade/activation flow that follows is outside this claim).
`checkOk n` is the outcome of the n-th `ota_.CheckVersion()` call and
`isIdleAt n k` tells whether `device_state_ == kDeviceStateIdle` holds
at the check after the k-th one-second sleep of the wait following
attempt `n`. -/

/-- `MAX_RETRY` from `Application::CheckNewVersion`. -/
def MAX_RETRY : Nat := 10

/-- The inner wait loop
`for i in [0, retry_delay): vTaskDelay(1s); if idle then break`,
returning the number of seconds actually slept.  `remaining` counts
the iterations left and `slept` the seconds slept so far. -/
def backoffWaitAux (isIdle : Nat → Bool) : Nat → Nat → Nat
  | 0, slept => slept
  | remaining + 1, slept =>
      if isIdle (slept + 1) then slept + 1
      else backoffWaitAux isIdle remaining (slept + 1)

/-- Seconds actually slept by one retry wait of nominal length
`retry_delay`. -/
def backoffWait (retry_delay : Nat) (isIdle : Nat → Bool) : Nat :=
  backoffWaitAux isIdle retry_delay 0

/-- The outcome of the retry skeleton: each wait actually performed
(in seconds slept), the number of failed `CheckVersion` calls, and
whether the loop gave up and returned. -/
structure VersionCheckRun where
  waits : List Nat
  failed_attempts : Nat
  gave_up : Bool
deriving DecidableEq, Repr

/-- The retry skeleton of `Application::CheckNewVersion`, starting
from a given `retry_count` / `retry_delay` at attempt index
`attempt`.  The real loop enters with `retry_count = 0`,
`retry_delay = 10`. -/
def checkNewVersionRetries (checkOk : Nat → Bool) (isIdleAt : Nat → Nat → Bool)
    (retry_count retry_delay attempt : Nat) : VersionCheckRun :=
  if checkOk attempt then ⟨[], 0, false⟩
  else
    let rc := retry_count + 1
    if _h : MAX_RETRY ≤ rc then ⟨[], 1, true⟩
    else
      let w := backoffWait retry_delay (isIdleAt attempt)
      let r := checkNewVersionRetries checkOk isIdleAt rc (retry_delay * 2)
        (attempt + 1)
      ⟨w :: r.waits, r.failed_attempts + 1, r.gave_up⟩
termination_by MAX_RETRY - retry_count
decreasing_by simp only [MAX_RETRY] at *; omega

/-! ## Claim theorems -/

/-- C2: `WaitForCompletion` never returns while any submitted unit of
work is still pending in the queue or still executing: in every state
reachable under any sequence of `Schedule` calls (including units
submitted from within running units), the wait predicate
`main_tasks_.empty() && active_tasks_ == 0` implies that the pending
list, the worker's in-flight batch and the currently running closure
are all empty. -/
theorem waitForCompletion_only_when_drained (s : BgState)
    (hreach : BgReachable s) (hret : WaitForCompletionCanReturn s) :
    s.main_tasks = [] ∧ s.batch = [] ∧ s.running = none := by
  rcases hret with ⟨hmt, hat⟩
  have hc := bgCounts_of_reachable hreach
  unfold BgCounts at hc
  rw [hmt, hat] at hc
  cases hrun : s.running with
  | some l =>
      rw [hrun] at hc
      simp at hc
  | none =>
      rw [hrun] at hc
      simp at hc
      exact ⟨hmt, List.eq_nil_of_length_eq_zero hc.symm, rfl⟩

/-- Witness for C2: a concrete run that schedules one unit, drains it,
and then observes the wait predicate. -/
theorem waitForCompletion_only_when_drained_witness :
    (⟨[], [], none, 0⟩ : BgState).main_tasks = [] ∧
    (⟨[], [], none, 0⟩ : BgState).batch = [] ∧
    (⟨[], [], none, 0⟩ : BgState).running = none :=
  waitForCompletion_only_when_drained ⟨[], [], none, 0⟩
    (Relation.ReflTransGen.tail
      (Relation.ReflTransGen.tail
        (Relation.ReflTransGen.tail
          (Relation.ReflTransGen.tail Relation.ReflTransGen.refl
            (BgStep.schedule BgState.init (Job.mk [])))
          (BgStep.swapBatch ⟨[Job.mk []], [], none, 1⟩
            (List.cons_ne_nil _ _) rfl rfl))
        (BgStep.startJob ⟨[], [Job.mk []], none, 1⟩ (Job.mk []) [] rfl rfl))
      (BgStep.finishJob ⟨[], [], some [], 1⟩ rfl))
    ⟨rfl, rfl⟩

/-- C5: the decode queue is capped at `300 / OPUS_FRAME_DURATION_MS`
entries (5 at the 60 ms frame duration): inserting into a full queue
returns the queue unchanged (a silent drop, total — never a block and
never an error), and insertion preserves the capacity bound. -/
theorem decodeQueue_bounded :
    max_packets_in_queue = 5 ∧
    ∀ (q : List AudioPacket) (d : AudioPacket),
      (max_packets_in_queue ≤ q.length → onIncomingAudio q d = q) ∧
      (q.length ≤ max_packets_in_queue →
        (onIncomingAudio q d).length ≤ max_packets_in_queue) := by
  refine ⟨rfl, fun q d => ⟨fun hfull => ?_, fun hle => ?_⟩⟩
  · unfold onIncomingAudio
    rw [if_neg (by omega)]
  · unfold onIncomingAudio
    split
    · simp
      omega
    · exact hle

/-- Witness for C5: a queue already holding 5 packets drops the sixth
and stays at 5 entries. -/
theorem decodeQueue_bounded_witness :
    onIncomingAudio [[0], [1], [2], [3], [4]] [5] = [[0], [1], [2], [3], [4]] ∧
    (onIncomingAudio [[0], [1], [2], [3], [4]] [5]).length ≤ max_packets_in_queue :=
  ⟨(decodeQueue_bounded.2 [[0], [1], [2], [3], [4]] [5]).1 (by decide),
   (decodeQueue_bounded.2 [[0], [1], [2], [3], [4]] [5]).2 (by decide)⟩

/-- C8: `IsTimeout()` is true exactly when more than the fixed
120-second window has elapsed since the last inbound traffic, and once
it is true the MQTT `IsAudioChannelOpened()` reports `false` without
any close having happened (the UDP socket may still be present and no
error recorded); in particular after 121 seconds of silence the
channel reads as timed out and closed. -/
theorem isTimeout_closes_channel (st : MqttState) (now : Nat)
    (hsilence : kTimeoutSeconds + 1 ≤ now - st.last_incoming_time) :
    (∀ n l : Nat, IsTimeout n l = true ↔ kTimeoutSeconds < n - l) ∧
    IsTimeout now st.last_incoming_time = true ∧
    MqttIsAudioChannelOpened st now = false := by
  have hto : IsTimeout now st.last_incoming_time = true := by
    unfold IsTimeout
    simp only [decide_eq_true_eq]
    omega
  refine ⟨fun n l => ?_, hto, ?_⟩
  · unfold IsTimeout
    simp
  · unfold MqttIsAudioChannelOpened
    rw [hto]
    simp

/-- Witness for C8: a channel with an open UDP socket and no error
that last heard from the server at second 0, observed at second 121. -/
theorem isTimeout_closes_channel_witness :
    (∀ n l : Nat, IsTimeout n l = true ↔ kTimeoutSeconds < n - l) ∧
    IsTimeout 121 ({ udp_connected := true } : MqttState).last_incoming_time = true ∧
    MqttIsAudioChannelOpened { udp_connected := true } 121 = false :=
  isTimeout_closes_channel { udp_connected := true } 121 (by decide)

/-- C6: on both transports `OpenAudioChannel()` is a total boolean
function of the connect, send and hello-arrival outcomes (so ordinary
network failure can only surface as `false`, never as an exception):
it returns `true` exactly when the link is (or becomes) connected, the
client hello is sent, and the server hello acknowledgment arrives
within the fixed 10-second window. -/
theorem openAudioChannel_false_on_failure :
    (∀ env : MqttOpenEnv, MqttOpenAudioChannel env = true ↔
      ((env.mqtt_connected = true ∨ env.start_mqtt_client_ok = true) ∧
        env.send_text_ok = true ∧
        ∃ t, env.hello_event_at_ms = some t ∧ t ≤ kServerHelloTimeoutMs)) ∧
    (∀ env : WsOpenEnv, WsOpenAudioChannel env = true ↔
      (env.connect_ok = true ∧ env.send_text_ok = true ∧
        ∃ t, env.hello_event_at_ms = some t ∧ t ≤ kServerHelloTimeoutMs)) := by
  constructor
  · rintro ⟨mc, sc, stx, he⟩
    unfold MqttOpenAudioChannel
    cases mc <;> cases sc <;> cases stx <;> cases he <;> simp
  · rintro ⟨co, stx, he⟩
    unfold WsOpenAudioChannel
    cases co <;> cases stx <;> cases he <;> simp

/-- Counterexample to C3: the stale check of the `udp_->OnMessage`
lambda is `sequence < remote_sequence_`, strictly.  A packet whose
sequence equals the current `remote_sequence_` (here 5) passes the
check: it is logged only as a sequence gap, decrypted, delivered to
the inbound-audio callback, and `last_incoming_time_` is refreshed —
contradicting the claim that every sequence ≤ `remote_sequence_` is
dropped unprocessed. -/
theorem staleCheck_leq_counterexample :
    be32At [1, 0, 0, 0, 0, 0, 0, 0, 0, 0, 0, 0, 0, 0, 0, 5, 7] 12 ≤
      ({ remote_sequence := 5, aes_nonce := List.replicate 16 0 } : MqttState).remote_sequence ∧
    (udpOnMessage ⟨16, fun _ c => .ok c, true⟩
        { remote_sequence := 5, aes_nonce := List.replicate 16 0 }
        [1, 0, 0, 0, 0, 0, 0, 0, 0, 0, 0, 0, 0, 0, 0, 5, 7] 42).delivered = some [7] ∧
    (udpOnMessage ⟨16, fun _ c => .ok c, true⟩
        { remote_sequence := 5, aes_nonce := List.replicate 16 0 }
        [1, 0, 0, 0, 0, 0, 0, 0, 0, 0, 0, 0, 0, 0, 0, 5, 7] 42).st.last_incoming_time = 42 ∧
    (udpOnMessage ⟨16, fun _ c => .ok c, true⟩
        { remote_sequence := 5, aes_nonce := List.replicate 16 0 }
        [1, 0, 0, 0, 0, 0, 0, 0, 0, 0, 0, 0, 0, 0, 0, 5, 7] 42).log =
      [.wrongSequence 5 6] :=
  ⟨by decide, rfl, rfl, rfl⟩

/-- C3 (amended): only a received sequence strictly below
`remote_sequence_` is stale: such a packet is logged as old, nothing
is decrypted or delivered, and the protocol state (in particular
`remote_sequence_`) is left unchanged. -/
theorem staleCheck_strict (env : UdpEnv) (st : MqttState) (data : List Nat)
    (now : Nat) (hlen : env.nonce_len_check ≤ data.length)
    (htype : data.getD 0 0 = 1)
    (hseq : be32At data 12 < st.remote_sequence) :
    udpOnMessage env st data now =
      ⟨st, none, [.oldSequence (be32At data 12) st.remote_sequence]⟩ := by
  simp only [udpOnMessage]
  rw [if_neg (by omega), if_neg (not_not_intro htype), if_pos hseq]

/-- Witness for C3 (amended): a packet with sequence 5 arriving while
`remote_sequence_` is 9 is dropped with an old-sequence log line and
the state untouched. -/
theorem staleCheck_strict_witness :
    udpOnMessage ⟨16, fun _ c => .ok c, true⟩
        { remote_sequence := 9, aes_nonce := List.replicate 16 0 }
        [1, 0, 0, 0, 0, 0, 0, 0, 0, 0, 0, 0, 0, 0, 0, 5, 7] 42 =
      ⟨{ remote_sequence := 9, aes_nonce := List.replicate 16 0 }, none,
        [.oldSequence 5 9]⟩ :=
  staleCheck_strict ⟨16, fun _ c => .ok c, true⟩
    { remote_sequence := 9, aes_nonce := List.replicate 16 0 }
    [1, 0, 0, 0, 0, 0, 0, 0, 0, 0, 0, 0, 0, 0, 0, 5, 7] 42
    (by decide) (by decide) (by decide)

/-- C10: with the inbound-audio callback registered, every datagram
that fails validation — shorter than the checked nonce width, leading
type byte other than `0x01`, or a decryption error — is dropped
atomically: nothing is delivered and the whole protocol state
(including `remote_sequence_` and `last_incoming_time_`) is unchanged;
conversely any state change means a packet was decrypted and
delivered, with `remote_sequence_` set to the packet's sequence and
`last_incoming_time_` refreshed. -/
theorem udp_failures_drop_atomically (env : UdpEnv) (st : MqttState)
    (data : List Nat) (now : Nat) (hcb : env.has_audio_callback = true) :
    (data.length < env.nonce_len_check →
      udpOnMessage env st data now = ⟨st, none, [.invalidSize data.length]⟩) ∧
    (env.nonce_len_check ≤ data.length → data.getD 0 0 ≠ 1 →
      udpOnMessage env st data now = ⟨st, none, [.invalidType (data.getD 0 0)]⟩) ∧
    (∀ e, env.decrypt (data.take st.aes_nonce.length)
        (data.drop st.aes_nonce.length) = .error e →
      (udpOnMessage env st data now).st = st ∧
      (udpOnMessage env st data now).delivered = none) ∧
    ((udpOnMessage env st data now).st ≠ st →
      ∃ d, (udpOnMessage env st data now).delivered = some d ∧
        (udpOnMessage env st data now).st.remote_sequence = be32At data 12 ∧
        (udpOnMessage env st data now).st.last_incoming_time = now) := by
  refine ⟨fun hshort => ?_, fun hlen htype => ?_, fun e hdec => ?_, fun hchange => ?_⟩
  · simp only [udpOnMessage]
    rw [if_pos hshort]
  · simp only [udpOnMessage]
    rw [if_neg (by omega), if_pos htype]
  · simp only [udpOnMessage, hdec]
    split_ifs <;> exact ⟨rfl, rfl⟩
  · by_cases c1 : data.length < env.nonce_len_check
    · refine absurd ?_ hchange
      simp only [udpOnMessage]
      rw [if_pos c1]
    · by_cases c2 : data.getD 0 0 ≠ 1
      · refine absurd ?_ hchange
        simp only [udpOnMessage]
        rw [if_neg c1, if_pos c2]
      · by_cases c3 : be32At data 12 < st.remote_sequence
        · refine absurd ?_ hchange
          simp only [udpOnMessage]
          rw [if_neg c1, if_neg c2, if_pos c3]
        · rcases hdec : env.decrypt (data.take st.aes_nonce.length)
              (data.drop st.aes_nonce.length) with e | d
          · refine absurd ?_ hchange
            simp only [udpOnMessage, hdec]
            rw [if_neg c1, if_neg c2, if_neg c3]
          · refine ⟨d, ?_, ?_, ?_⟩ <;>
              · simp only [udpOnMessage, hdec]
                rw [if_neg c1, if_neg c2, if_neg c3, hcb]
                try rfl

/-- Witness for C10: a 3-byte datagram (shorter than a 16-byte nonce
check width) is dropped with an invalid-size log line and the state
untouched. -/
theorem udp_failures_drop_atomically_witness :
    udpOnMessage ⟨16, fun _ c => .ok c, true⟩ {} [1, 2, 3] 7 =
      ⟨{}, none, [.invalidSize 3]⟩ :=
  (udp_failures_drop_atomically ⟨16, fun _ c => .ok c, true⟩ {} [1, 2, 3] 7
    rfl).1 (by decide)

/-- A control message that decomposes as the `session_id` field
followed by anything carries that session id. -/
theorem carries_sessionField_append (sid rest : String) :
    CarriesSessionId (sessionField sid ++ rest) sid := by
  unfold CarriesSessionId
  exact ⟨rest.data, (String.data_append _ _).symm⟩

theorem carries_sendStartListening (sid : String) (mode : ListeningMode) :
    CarriesSessionId (SendStartListening sid mode) sid := by
  have hr : SendStartListening sid .realtime =
      sessionField sid ++ ",\"type\":\"listen\",\"state\":\"start\",\"mode\":\"realtime\"\x7d" := by
    apply String.ext
    simp [SendStartListening, sessionField]
  have ha : SendStartListening sid .autoStop =
      sessionField sid ++ ",\"type\":\"listen\",\"state\":\"start\",\"mode\":\"auto\"\x7d" := by
    apply String.ext
    simp [SendStartListening, sessionField]
  have hm : SendStartListening sid .manualStop =
      sessionField sid ++ ",\"type\":\"listen\",\"state\":\"start\",\"mode\":\"manual\"\x7d" := by
    apply String.ext
    simp [SendStartListening, sessionField]
  cases mode
  · rw [ha]
    exact carries_sessionField_append _ _
  · rw [hm]
    exact carries_sessionField_append _ _
  · rw [hr]
    exact carries_sessionField_append _ _

theorem carries_sendStopListening (sid : String) :
    CarriesSessionId (SendStopListening sid) sid := by
  have h : SendStopListening sid =
      sessionField sid ++ ",\"type\":\"listen\",\"state\":\"stop\"\x7d" := by
    apply String.ext
    simp [SendStopListening, sessionField]
  rw [h]
  exact carries_sessionField_append _ _

theorem carries_sendAbortSpeaking (sid : String) (reason : AbortReason) :
    CarriesSessionId (SendAbortSpeaking sid reason) sid := by
  cases reason
  · have h : SendAbortSpeaking sid .none =
        sessionField sid ++ ",\"type\":\"abort\"\x7d" := by
      apply String.ext
      simp [SendAbortSpeaking, sessionField]
    rw [h]
    exact carries_sessionField_append _ _
  · have h : SendAbortSpeaking sid .wakeWordDetected =
        sessionField sid ++ ",\"type\":\"abort\",\"reason\":\"wake_word_detected\"\x7d" := by
      apply String.ext
      simp [SendAbortSpeaking, sessionField]
    rw [h]
    exact carries_sessionField_append _ _

theorem carries_sendWakeWordDetected (sid wake_word : String) :
    CarriesSessionId (SendWakeWordDetected sid wake_word) sid := by
  have h : SendWakeWordDetected sid wake_word =
      sessionField sid ++ (",\"type\":\"listen\",\"state\":\"detect\",\"text\":\""
        ++ wake_word ++ "\"\x7d") := by
    apply String.ext
    simp [SendWakeWordDetected, sessionField]
  rw [h]
  exact carries_sessionField_append _ _

theorem carries_sendIotStates (sid states : String) :
    CarriesSessionId (SendIotStates sid states) sid := by
  have h : SendIotStates sid states =
      sessionField sid ++ (",\"type\":\"iot\",\"update\":true,\"states\":"
        ++ states ++ "\x7d") := by
    apply String.ext
    simp [SendIotStates, sessionField]
  rw [h]
  exact carries_sessionField_append _ _

theorem carries_iotDescriptorMessage (sid descriptor : String) :
    CarriesSessionId (iotDescriptorMessage sid descriptor) sid := by
  have h : iotDescriptorMessage sid descriptor =
      sessionField sid ++ (",\"type\":\"iot\",\"update\":true,\"descriptors\":["
        ++ descriptor ++ "]\x7d") := by
    apply String.ext
    simp [iotDescriptorMessage, sessionField]
  rw [h]
  exact carries_sessionField_append _ _

theorem carries_goodbyeMessage (sid : String) :
    CarriesSessionId (goodbyeMessage sid) sid := by
  have h : goodbyeMessage sid = sessionField sid ++ ",\"type\":\"goodbye\"\x7d" := by
    apply String.ext
    simp [goodbyeMessage, sessionField]
  rw [h]
  exact carries_sessionField_append _ _

/-- Counterexample to C7: `WebsocketProtocol::ParseServerHello` never
reads the `session_id` field of the peer's hello.  A websocket hello
carrying `session_id = "abc"` completes the handshake (the event is
signalled) yet leaves the stored `session_id_` at its previous value
(here the empty string), so a subsequent stop-listening control
message does not carry the session id from the hello. -/
theorem ws_sessionId_ignored_counterexample :
    (WsParseServerHello {}
        ⟨some "websocket", some "abc", some 16000, some 60, none⟩).2 = true ∧
    (WsParseServerHello {}
        ⟨some "websocket", some "abc", some 16000, some 60, none⟩).1.session_id = "" ∧
    ¬ CarriesSessionId
        (SendStopListening (WsParseServerHello {}
          ⟨some "websocket", some "abc", some 16000, some 60, none⟩).1.session_id)
        "abc" := by
  refine ⟨rfl, rfl, ?_⟩
  unfold CarriesSessionId
  decide

/-- C7 (amended): on the encrypted-datagram (MQTT) transport the
session id of the peer's hello is stored by `ParseServerHello` and is
attached to every subsequent control message (start-listening,
stop-listening, abort, wake-word-detected, IoT descriptors/states,
goodbye); on the websocket transport `ParseServerHello` leaves the
stored session id unchanged (the hello's `session_id` field is
ignored), so its control messages carry the prior — initially empty —
session id instead. -/
theorem sessionId_attached_mqtt_only (st : MqttState) (hello : HelloMessage)
    (sid : String) (htr : hello.transport = some "udp")
    (hsid : hello.session_id = some sid) :
    ((MqttParseServerHello st hello).1.session_id = sid ∧
      (∀ mode, CarriesSessionId
        (SendStartListening (MqttParseServerHello st hello).1.session_id mode) sid) ∧
      CarriesSessionId
        (SendStopListening (MqttParseServerHello st hello).1.session_id) sid ∧
      (∀ reason, CarriesSessionId
        (SendAbortSpeaking (MqttParseServerHello st hello).1.session_id reason) sid) ∧
      (∀ w, CarriesSessionId
        (SendWakeWordDetected (MqttParseServerHello st hello).1.session_id w) sid) ∧
      (∀ s, CarriesSessionId
        (SendIotStates (MqttParseServerHello st hello).1.session_id s) sid) ∧
      (∀ d, CarriesSessionId
        (iotDescriptorMessage (MqttParseServerHello st hello).1.session_id d) sid) ∧
      CarriesSessionId
        (goodbyeMessage (MqttParseServerHello st hello).1.session_id) sid) ∧
    (∀ (wst : WsState) (h2 : HelloMessage),
      (WsParseServerHello wst h2).1.session_id = wst.session_id) := by
  have hsess : (MqttParseServerHello st hello).1.session_id = sid := by
    obtain ⟨tr, hs, sr, fd, udp⟩ := hello
    simp only at htr hsid
    subst htr hsid
    cases sr <;> cases fd <;> cases udp <;> simp [MqttParseServerHello]
  have hws : ∀ (wst : WsState) (h2 : HelloMessage),
      (WsParseServerHello wst h2).1.session_id = wst.session_id := by
    intro wst h2
    obtain ⟨tr, hs, sr, fd, udp⟩ := h2
    unfold WsParseServerHello
    split
    · rfl
    · cases sr <;> cases fd <;> simp
  rw [hsess]
  exact ⟨⟨rfl, carries_sendStartListening sid, carries_sendStopListening sid,
    carries_sendAbortSpeaking sid, carries_sendWakeWordDetected sid,
    carries_sendIotStates sid, carries_iotDescriptorMessage sid,
    carries_goodbyeMessage sid⟩, hws⟩

/-- Witness for C7 (amended): a concrete MQTT hello with session id
`"abc"`; the stop-listening message built afterwards carries it. -/
theorem sessionId_attached_mqtt_only_witness :
    CarriesSessionId
      (SendStopListening (MqttParseServerHello {}
        ⟨some "udp", some "abc", some 16000, some 60,
          some ⟨"srv.example", 8884, [1, 2], [3, 4]⟩⟩).1.session_id)
      "abc" :=
  ((sessionId_attached_mqtt_only {}
    ⟨some "udp", some "abc", some 16000, some 60,
      some ⟨"srv.example", 8884, [1, 2], [3, 4]⟩⟩ "abc" rfl rfl).1.2.2.1)

/-- In a trace that opens with the five fixed pre-switch events of
`SetDeviceState` and then runs only entry actions, every entry action
is preceded by the `WaitForCompletion` event. -/
theorem wait_precedes_entries (p s : DeviceState) (l : List EntryAction)
    (t1 t2 : List AppEvent) (a : EntryAction)
    (h : [AppEvent.recordPrevious p, AppEvent.setState s,
          AppEvent.logTransition s, AppEvent.waitForCompletion,
          AppEvent.ledOnStateChanged] ++ l.map AppEvent.entry
        = t1 ++ AppEvent.entry a :: t2) :
    AppEvent.waitForCompletion ∈ t1 := by
  rcases t1 with _ | ⟨x1, _ | ⟨x2, _ | ⟨x3, _ | ⟨x4, t1'⟩⟩⟩⟩
  · simp at h
  · simp at h
  · simp at h
  · simp at h
  · simp only [List.cons_append, List.cons.injEq] at h
    rw [h.2.2.2.1]
    simp

/-- C1: for every call of `SetDeviceState` with a state different from
the current one, the call records the previous state, writes the new
state (resetting the state clock), logs the transition, blocks on
`WorkQueue.WaitForCompletion()`, and only afterwards runs the new
state's entry actions: the trace is exactly that sequence, and in it
every entry action is preceded by the wait-for-completion barrier. -/
theorem setDeviceState_waits_before_entries (cfg : BuildConfig)
    (app : AppState) (state : DeviceState)
    (hne : app.device_state ≠ state) :
    SetDeviceState cfg app state =
      ({ app with clock_ticks := 0, device_state := state },
        [.recordPrevious app.device_state, .setState state,
          .logTransition state, .waitForCompletion, .ledOnStateChanged]
          ++ (entryActionsFor cfg state app.device_state app.listening_mode
                app.audio_processor_running).map .entry) ∧
    ∀ t1 a t2, (SetDeviceState cfg app state).2 = t1 ++ AppEvent.entry a :: t2 →
      AppEvent.waitForCompletion ∈ t1 := by
  have heq : SetDeviceState cfg app state =
      ({ app with clock_ticks := 0, device_state := state },
        [.recordPrevious app.device_state, .setState state,
          .logTransition state, .waitForCompletion, .ledOnStateChanged]
          ++ (entryActionsFor cfg state app.device_state app.listening_mode
                app.audio_processor_running).map .entry) := by
    unfold SetDeviceState
    rw [if_neg hne]
  refine ⟨heq, fun t1 a t2 hsplit => ?_⟩
  rw [heq] at hsplit
  exact wait_precedes_entries _ _ _ _ _ _ hsplit

/-- Witness for C1: a concrete transition from `Idle` to `Connecting`
with both config switches on. -/
theorem setDeviceState_waits_before_entries_witness :
    SetDeviceState ⟨true, true⟩
      ⟨.idle, 3, .autoStop, false⟩ .connecting =
      (⟨.connecting, 0, .autoStop, false⟩,
        [.recordPrevious .idle, .setState .connecting,
          .logTransition .connecting, .waitForCompletion, .ledOnStateChanged,
          .entry .showConnecting, .entry .setEmotionNeutral,
          .entry .clearChatMessage]) ∧
    ∀ t1 a t2,
      (SetDeviceState ⟨true, true⟩ ⟨.idle, 3, .autoStop, false⟩ .connecting).2
        = t1 ++ AppEvent.entry a :: t2 →
      AppEvent.waitForCompletion ∈ t1 := by
  have h := setDeviceState_waits_before_entries ⟨true, true⟩
    ⟨.idle, 3, .autoStop, false⟩ .connecting (by decide)
  exact ⟨by rw [h.1]; rfl, h.2⟩

/-- C4: requesting a transition to the already-active state is a
no-op — the state fields are unchanged and no event (in particular no
entry action) is performed — and therefore two consecutive
`SetDeviceState(S)` calls from a different state run S's entry actions
exactly once: the second call returns an empty trace and the combined
trace contains exactly one copy of S's entry-action block. -/
theorem setDeviceState_noop_when_same (cfg : BuildConfig) (app : AppState)
    (state : DeviceState) :
    (app.device_state = state → SetDeviceState cfg app state = (app, [])) ∧
    SetDeviceState cfg (SetDeviceState cfg app state).1 state
      = ((SetDeviceState cfg app state).1, []) ∧
    (app.device_state ≠ state →
      ((SetDeviceState cfg app state).2
          ++ (SetDeviceState cfg (SetDeviceState cfg app state).1 state).2).filter
          AppEvent.isEntry
        = (entryActionsFor cfg state app.device_state app.listening_mode
            app.audio_processor_running).map .entry) := by
  by_cases hsame : app.device_state = state
  · refine ⟨fun _ => ?_, ?_, fun hne => absurd hsame hne⟩
    · unfold SetDeviceState
      rw [if_pos hsame]
    · unfold SetDeviceState
      rw [if_pos hsame]
      simp [hsame]
  · have h1 : SetDeviceState cfg app state =
        ({ app with clock_ticks := 0, device_state := state },
          [.recordPrevious app.device_state, .setState state,
            .logTransition state, .waitForCompletion, .ledOnStateChanged]
            ++ (entryActionsFor cfg state app.device_state app.listening_mode
                  app.audio_processor_running).map .entry) := by
      unfold SetDeviceState
      rw [if_neg hsame]
    have h2 : SetDeviceState cfg (SetDeviceState cfg app state).1 state
        = ((SetDeviceState cfg app state).1, []) := by
      rw [h1]
      unfold SetDeviceState
      rw [if_pos rfl]
    refine ⟨fun hs => absurd hs hsame, h2, fun _ => ?_⟩
    rw [h2, h1]
    simp [AppEvent.isEntry, List.filter_append, List.filter_map, Function.comp]
    congr 1
    apply List.filter_eq_self.mpr
    intro a _
    rfl

/-- Witness for C4: two consecutive requests for `Speaking` from
`Listening`; the second is a no-op and the combined trace runs the
`Speaking` entry actions once. -/
theorem setDeviceState_noop_when_same_witness :
    SetDeviceState ⟨true, true⟩
      (SetDeviceState ⟨true, true⟩ ⟨.listening, 7, .autoStop, true⟩ .speaking).1
      .speaking
      = ((SetDeviceState ⟨true, true⟩
          ⟨.listening, 7, .autoStop, true⟩ .speaking).1, []) ∧
    ((SetDeviceState ⟨true, true⟩ ⟨.listening, 7, .autoStop, true⟩ .speaking).2
        ++ (SetDeviceState ⟨true, true⟩
            (SetDeviceState ⟨true, true⟩
              ⟨.listening, 7, .autoStop, true⟩ .speaking).1 .speaking).2).filter
        AppEvent.isEntry
      = (entryActionsFor ⟨true, true⟩ .speaking .listening .autoStop true).map
          .entry :=
  ⟨(setDeviceState_noop_when_same ⟨true, true⟩
      ⟨.listening, 7, .autoStop, true⟩ .speaking).2.1,
   (setDeviceState_noop_when_same ⟨true, true⟩
      ⟨.listening, 7, .autoStop, true⟩ .speaking).2.2 (by decide)⟩

/-- The wait loop sleeps at most its nominal duration. -/
theorem backoffWaitAux_le (isIdle : Nat → Bool) :
    ∀ n slept, backoffWaitAux isIdle n slept ≤ slept + n := by
  intro n
  induction n with
  | zero => intro slept; simp [backoffWaitAux]
  | succ k ih =>
      intro slept
      unfold backoffWaitAux
      split
      · omega
      · have := ih (slept + 1)
        omega

/-- If the idle flag is seen at second `k` of the wait, the wait loop
returns after at most `k` seconds. -/
theorem backoffWaitAux_early (isIdle : Nat → Bool) :
    ∀ n slept k, slept < k → k ≤ slept + n → isIdle k = true →
      backoffWaitAux isIdle n slept ≤ k := by
  intro n
  induction n with
  | zero => intro slept k h1 h2 _; omega
  | succ m ih =>
      intro slept k h1 h2 hk
      unfold backoffWaitAux
      split
      · omega
      · next hfalse =>
          have hne : k ≠ slept + 1 := by
            intro heq
            rw [heq] at hk
            rw [hk] at hfalse
            exact hfalse rfl
          exact ih (slept + 1) k (by omega) (by omega) hk

/-- A wait during which the device never goes idle sleeps its full
nominal duration. -/
theorem backoffWaitAux_const_false :
    ∀ n slept, backoffWaitAux (fun _ => false) n slept = slept + n := by
  intro n
  induction n with
  | zero => intro slept; simp [backoffWaitAux]
  | succ k ih =>
      intro slept
      unfold backoffWaitAux
      simp only [Bool.false_eq_true, if_false]
      rw [ih (slept + 1)]
      omega

theorem backoffWait_const_false (d : Nat) :
    backoffWait d (fun _ => false) = d := by
  unfold backoffWait
  rw [backoffWaitAux_const_false]
  omega

/-- Failed `CheckVersion` attempts never exceed the retry budget, and
a run that gives up used the whole budget. -/
theorem checkNewVersionRetries_failed_bound (checkOk : Nat → Bool)
    (isIdleAt : Nat → Nat → Bool) :
    ∀ (fuel rc rd a : Nat), MAX_RETRY = rc + fuel → 0 < fuel →
      (checkNewVersionRetries checkOk isIdleAt rc rd a).failed_attempts ≤ fuel ∧
      ((checkNewVersionRetries checkOk isIdleAt rc rd a).gave_up = true →
        (checkNewVersionRetries checkOk isIdleAt rc rd a).failed_attempts = fuel) := by
  intro fuel
  induction fuel with
  | zero => intro rc rd a h h0; omega
  | succ k ih =>
      intro rc rd a hmax _
      unfold checkNewVersionRetries
      dsimp only
      split
      · simp
      · split
        · next hge => simp at hge ⊢; omega
        · next hlt =>
            obtain ⟨ih1, ih2⟩ := ih (rc + 1) (rd * 2) (a + 1) (by omega) (by omega)
            simp only
            refine ⟨by omega, fun hg => ?_⟩
            have := ih2 hg
            omega

/-- C9: when `CheckVersion` keeps failing (and the device is never
forced to `Idle`), the waits between attempts are exactly the
exponential sequence 10, 20, 40, ..., 2560 seconds and the loop gives
up after exactly `MAX_RETRY = 10` failed attempts; in any run the
failed attempts never exceed 10 (and equal 10 whenever the loop gives
up); every wait sleeps at most its nominal duration; and a wait during
which the device state becomes `Idle` at second `k` ends after at most
`k` seconds. -/
theorem versionCheck_backoff_sequence :
    checkNewVersionRetries (fun _ => false) (fun _ _ => false) 0 10 0 =
      ⟨[10, 20, 40, 80, 160, 320, 640, 1280, 2560], MAX_RETRY, true⟩ ∧
    (∀ (checkOk : Nat → Bool) (isIdleAt : Nat → Nat → Bool),
      (checkNewVersionRetries checkOk isIdleAt 0 10 0).failed_attempts ≤ MAX_RETRY ∧
      ((checkNewVersionRetries checkOk isIdleAt 0 10 0).gave_up = true →
        (checkNewVersionRetries checkOk isIdleAt 0 10 0).failed_attempts = MAX_RETRY)) ∧
    (∀ (d : Nat) (isIdle : Nat → Bool), backoffWait d isIdle ≤ d) ∧
    (∀ (d : Nat) (isIdle : Nat → Bool) (k : Nat),
      0 < k → k ≤ d → isIdle k = true → backoffWait d isIdle ≤ k) := by
  refine ⟨?_, fun checkOk isIdleAt => ?_, fun d isIdle => ?_,
    fun d isIdle k h1 h2 h3 => ?_⟩
  · simp [checkNewVersionRetries, backoffWait_const_false, MAX_RETRY]
  · exact checkNewVersionRetries_failed_bound checkOk isIdleAt MAX_RETRY 0 10 0
      (by decide) (by decide)
  · have := backoffWaitAux_le isIdle d 0
    unfold backoffWait
    omega
  · have := backoffWaitAux_early isIdle d 0 k (by omega) (by omega) h3
    unfold backoffWait
    omega

/-- Witness for C9: a wait of nominal 40 seconds during which the
device goes idle at second 3 ends within 3 seconds. -/
theorem versionCheck_backoff_sequence_witness :
    backoffWait 40 (fun k => k == 3) ≤ 3 :=
  versionCheck_backoff_sequence.2.2.2 40 (fun k => k == 3) 3
    (by decide) (by decide) (by decide)

end Xiaoyu
